import Mathlib

/-!
# G4WentzelVIModel: material cache, particle cache and second-moment lookup

A shallow embedding of the inline member functions of `G4WentzelVIModel`
(`G4WentzelVIModel.hh`): `DefineMaterial`, `SetupParticle`, `SetFixedCut`,
`GetFixedCut`, `SetUseSecondMoment`, `UseSecondMoment`, `GetSecondMomentTable`
and `SecondMoment`; and of the inline member functions `SetVerbose`,
`ForceRebuildingPhysicsTable`, `SetChemistryList`, `Deregister` and
`ForceThreadReinitialization` of `G4DNAChemistryManager`
(`G4DNAChemistryManager.hh`).

Modelling conventions.

* A C++ pointer is an address (`Ptr`, a natural number); the null pointer is
  address `0`.  Pointer comparison is comparison of addresses.
* `G4double` is modelled by `ℚ`: rounding is abstracted away.  IEEE division
  by zero (which yields an infinity or a NaN without trapping) has no
  counterpart in `ℚ`, so statements that divide assume a nonzero divisor.
* `G4int` is modelled by `Int`, `size_t` by `Nat`.
* Dereferencing a null or dangling pointer and indexing a `std::vector`
  out of range are undefined behaviour in C++; the model returns `none` there.
* The objects the class only refers to (couples, the density vectors of the
  base class, physics vectors, the out-of-line `ComputeSecondMoment`) are not
  part of the header; they are collected in an environment `Env`.  The
  static `Activated` of the chemistry manager is likewise a field of `ChemEnv`.
-/

namespace G4

/-- A C++ pointer: an address, with `0` the null pointer. -/
abbrev Ptr := Nat

/-- The type `G4double`, with exact arithmetic. -/
abbrev G4double := ℚ

/-- The part of a `G4MaterialCutsCouple` the header reads: the results of
`GetMaterial()` (a `const G4Material*`) and of `GetIndex()` (a `G4int`). -/
structure G4MaterialCutsCouple where
  GetMaterial : Ptr
  GetIndex : Int
  deriving DecidableEq

/-- A `G4PhysicsTable` is a `std::vector<G4PhysicsVector*>`. -/
abbrev G4PhysicsTable := List Ptr

/-- The data members of `G4WentzelVIModel` (lines 139-195 of the header), in
declaration order, followed by `fCurrentCouple`, the member of the base class
`G4VEmModel` that `SetCurrentCouple` writes.  `fSecondMoments` is `none` for a
null table pointer and `some t` for a pointer to the table `t`. -/
structure G4WentzelVIModel where
  wokvi : Ptr
  tlimitminfix : G4double
  ssFactor : G4double
  invssFactor : G4double
  preKinEnergy : G4double
  tPathLength : G4double
  zPathLength : G4double
  lambdaeff : G4double
  currentRange : G4double
  cosTetMaxNuc : G4double
  currentMaterialIndex : Int
  currentCouple : Ptr
  currentMaterial : Ptr
  particle : Ptr
  inside : Bool
  singleScatteringMode : Bool
  fParticleChange : Ptr
  currentCuts : Ptr
  invsqrt12 : G4double
  fixedCut : G4double
  effKinEnergy : G4double
  cosThetaMin : G4double
  cosThetaMax : G4double
  fSecondMoments : Option G4PhysicsTable
  idx2 : Nat
  xtsec : G4double
  xsecn : List G4double
  prob : List G4double
  nelments : Int
  numlimit : G4double
  lowEnergyLimit : G4double
  isCombined : Bool
  useSecondMoment : Bool
  fCurrentCouple : Ptr
  deriving DecidableEq

/-- What the inline functions read from outside the object.

* `couple p` is the `G4MaterialCutsCouple` stored at the non-null address `p`,
  if there is one (the couples are `const` for the class).
* `theDensityIdx` and `theDensityFactor` are the vectors the base-class
  members of these names point to.
* `Value pv e lastidx` is `G4PhysicsVector::Value(e, lastidx)` on the physics
  vector at the non-null address `pv`: the interpolated value and the updated
  hint (the entries of a table are null or point to a physics vector).
* `ComputeSecondMoment` is the private out-of-line member function of the
  class (declared at lines 128-129, body not in the header): it may update the
  object and return a value, or not return (`none`). -/
structure Env where
  couple : Ptr → Option G4MaterialCutsCouple
  theDensityIdx : List Int
  theDensityFactor : List G4double
  Value : Ptr → G4double → Nat → G4double × Nat
  ComputeSecondMoment : G4WentzelVIModel → Ptr → G4double → Option (G4double × G4WentzelVIModel)

/-- Dereference of a `const G4MaterialCutsCouple*`: undefined (`none`) for the
null pointer and for an address that holds no couple. -/
def Env.deref (env : Env) (p : Ptr) : Option G4MaterialCutsCouple :=
  if p = 0 then none else env.couple p

/-- The expression `v[i]` for a `std::vector` and a `G4int` index: the index
is converted to `size_t` (64 bits); out of range is undefined (`none`). -/
def vecAt {α : Type} (v : List α) (i : Int) : Option α :=
  v.get? (i % 2 ^ 64).toNat

/-- The call `pv->Value(e, lastidx)` through a `G4PhysicsVector*`. -/
def Env.valueAt (env : Env) (pv : Ptr) (e : G4double) (lastidx : Nat) :
    Option (G4double × Nat) :=
  if pv = 0 then none else some (env.Value pv e lastidx)

/-- Calls the object makes on collaborators, in the order they happen:
`wokvi->SetupParticle(p)` and the out-of-line `ComputeSecondMoment(part, e)`. -/
inductive Call where
  | wokviSetupParticle (p : Ptr)
  | computeSecondMoment (part : Ptr) (ekin : G4double)
  deriving DecidableEq

/-- Modelled from the spec: `G4VEmModel::SetCurrentCouple` is a member of the
base class, whose header is not among the sources.  The material context of
the spec keeps one current material-and-cuts identity, so the setter is taken
to store its argument in the base-class field `fCurrentCouple` and to do
nothing else. -/
def SetCurrentCouple (s : G4WentzelVIModel) (p : Ptr) : G4WentzelVIModel :=
  { s with fCurrentCouple := p }

/-- The function `G4WentzelVIModel::DefineMaterial` (lines 201-210). -/
def DefineMaterial (env : Env) (s : G4WentzelVIModel) (cup : Ptr) :
    Option G4WentzelVIModel :=
  if cup ≠ s.currentCouple then
    let s1 := { s with currentCouple := cup }
    let s2 := SetCurrentCouple s1 cup
    match env.deref cup with
    | none => none
    | some c =>
      let s3 := { s2 with currentMaterial := c.GetMaterial }
      match env.deref s3.currentCouple with
      | none => none
      | some c' => some { s3 with currentMaterialIndex := c'.GetIndex }
  else some s

/-- The function `G4WentzelVIModel::SetupParticle` (lines 214-221): the new
state and the calls made on `wokvi`. -/
def SetupParticle (s : G4WentzelVIModel) (p : Ptr) : G4WentzelVIModel × List Call :=
  if p ≠ s.particle then
    ({ s with particle := p }, [Call.wokviSetupParticle p])
  else (s, [])

/-- The function `G4WentzelVIModel::SetFixedCut` (lines 225-228). -/
def SetFixedCut (s : G4WentzelVIModel) (val : G4double) : G4WentzelVIModel :=
  { s with fixedCut := val }

/-- The function `G4WentzelVIModel::GetFixedCut` (lines 232-235). -/
def GetFixedCut (s : G4WentzelVIModel) : G4double := s.fixedCut

/-- The function `G4WentzelVIModel::GetWVICrossSection` (lines 239-242). -/
def GetWVICrossSection (s : G4WentzelVIModel) : Ptr := s.wokvi

/-- The function `G4WentzelVIModel::SetUseSecondMoment` (lines 246-249). -/
def SetUseSecondMoment (s : G4WentzelVIModel) (val : Bool) : G4WentzelVIModel :=
  { s with useSecondMoment := val }

/-- The function `G4WentzelVIModel::UseSecondMoment` (lines 253-256). -/
def UseSecondMoment (s : G4WentzelVIModel) : Bool := s.useSecondMoment

/-- The function `G4WentzelVIModel::GetSecondMomentTable` (lines 260-263). -/
def GetSecondMomentTable (s : G4WentzelVIModel) : Option G4PhysicsTable :=
  s.fSecondMoments

/-- The result of a call of `SecondMoment`: the returned value, the object
afterwards and the calls made on collaborators. -/
structure SecondMomentResult where
  value : G4double
  state : G4WentzelVIModel
  calls : List Call
  deriving DecidableEq

/-- The function `G4WentzelVIModel::SecondMoment` (lines 267-284). -/
def SecondMoment (env : Env) (s : G4WentzelVIModel) (part couple : Ptr)
    (ekin : G4double) : Option SecondMomentResult :=
  let x : G4double := 0
  if s.useSecondMoment then
    match DefineMaterial env s couple with
    | none => none
    | some s1 =>
      match s1.fSecondMoments with
      | some table =>
        match vecAt env.theDensityIdx s1.currentMaterialIndex with
        | none => none
        | some di =>
          match vecAt table di with
          | none => none
          | some pv =>
            match env.valueAt pv ekin s1.idx2 with
            | none => none
            | some (v, lastidx) =>
              match vecAt env.theDensityFactor s1.currentMaterialIndex with
              | none => none
              | some f =>
                some ⟨v * f / (ekin * ekin), { s1 with idx2 := lastidx }, []⟩
      | none =>
        match env.ComputeSecondMoment s1 part ekin with
        | none => none
        | some (v, s2) => some ⟨v, s2, [Call.computeSecondMoment part ekin]⟩
  else some ⟨x, s, []⟩

/-- Material-cache consistency: the cached couple is null, or it points to a
couple whose material and index are the cached `currentMaterial` and
`currentMaterialIndex` (a couple is the pair of its material and index). -/
def CacheConsistent (env : Env) (s : G4WentzelVIModel) : Prop :=
  s.currentCouple = 0 ∨
    env.deref s.currentCouple = some ⟨s.currentMaterial, s.currentMaterialIndex⟩

instance (env : Env) (s : G4WentzelVIModel) : Decidable (CacheConsistent env s) := by
  unfold CacheConsistent; infer_instance

/-- The calls `DefineMaterial(c1); ...; DefineMaterial(cn)` in order. -/
def defineMaterials (env : Env) (s : G4WentzelVIModel) : List Ptr → Option G4WentzelVIModel
  | [] => some s
  | c :: cs =>
    match DefineMaterial env s c with
    | none => none
    | some s1 => defineMaterials env s1 cs

/-- The calls `SetupParticle(p1); ...; SetupParticle(pn)` in order: the final
state and all calls made on `wokvi`, in order. -/
def setupParticles (s : G4WentzelVIModel) : List Ptr → G4WentzelVIModel × List Call
  | [] => (s, [])
  | p :: ps =>
    let r := SetupParticle s p
    let r' := setupParticles r.1 ps
    (r'.1, r.2 ++ r'.2)

/-- The species changes of a sequence of particles, given the particle cached
before the sequence: the arguments that differ from their predecessor. -/
def speciesChanges (cached : Ptr) : List Ptr → List Ptr
  | [] => []
  | p :: ps => if p = cached then speciesChanges p ps else p :: speciesChanges p ps

/-- The inline operations of the class that change the object. -/
inductive Op where
  | defineMaterial (cup : Ptr)
  | setupParticle (p : Ptr)
  | setFixedCut (val : G4double)
  | setUseSecondMoment (val : Bool)
  | secondMoment (part couple : Ptr) (ekin : G4double)
  deriving DecidableEq

/-- The object after one operation (`none`: undefined behaviour). -/
def Op.apply (env : Env) (s : G4WentzelVIModel) : Op → Option G4WentzelVIModel
  | .defineMaterial cup => DefineMaterial env s cup
  | .setupParticle p => some (SetupParticle s p).1
  | .setFixedCut val => some (SetFixedCut s val)
  | .setUseSecondMoment val => some (SetUseSecondMoment s val)
  | .secondMoment part couple ekin => (SecondMoment env s part couple ekin).map (·.state)

/-- The object after a sequence of operations. -/
def runOps (env : Env) (s : G4WentzelVIModel) : List Op → Option G4WentzelVIModel
  | [] => some s
  | op :: ops =>
    match op.apply env s with
    | none => none
    | some s1 => runOps env s1 ops

/-- An environment for examples: three couples at addresses 1, 2, 3 with
materials 101, 102, 103 and indices 0, 1, 2; physics vectors at the addresses
201, 202, 203 whose `Value` is `e + 1`, `e + 2`, `e + 3`.  `ComputeSecondMoment`
is a stand-in for the absent body: a value computed from the cached material
index and the energy, the object left as it is. -/
def exEnv : Env where
  couple := fun p =>
    if p = 1 then some ⟨101, 0⟩ else if p = 2 then some ⟨102, 1⟩
    else if p = 3 then some ⟨103, 2⟩ else none
  theDensityIdx := [0, 1, 2]
  theDensityFactor := [2, 3, 5]
  Value := fun pv e _ => (e + ((pv : Int) - 200 : Int), 0)
  ComputeSecondMoment := fun s _ e => some (e + s.currentMaterialIndex, s)

/-- A state for examples: couple 1 cached consistently, a single-scattering
working set built for it, no second-moment table. -/
def exState : G4WentzelVIModel where
  wokvi := 50
  tlimitminfix := 0
  ssFactor := 1
  invssFactor := 1
  preKinEnergy := 0
  tPathLength := 0
  zPathLength := 0
  lambdaeff := 0
  currentRange := 0
  cosTetMaxNuc := 1
  currentMaterialIndex := 0
  currentCouple := 1
  currentMaterial := 101
  particle := 0
  inside := false
  singleScatteringMode := false
  fParticleChange := 0
  currentCuts := 0
  invsqrt12 := 0
  fixedCut := -1
  effKinEnergy := 0
  cosThetaMin := 1
  cosThetaMax := -1
  fSecondMoments := none
  idx2 := 0
  xtsec := 7
  xsecn := [3, 7]
  prob := [1, 0]
  nelments := 2
  numlimit := 0
  lowEnergyLimit := 0
  isCombined := true
  useSecondMoment := false
  fCurrentCouple := 1

/-- A sequence of operations for examples: it switches to couple 2, sets up
particle 5, sets the cut, enables the second moment and asks for it on
couple 3. -/
def exOps : List Op :=
  [.defineMaterial 2, .setupParticle 5, .setFixedCut 1, .setUseSecondMoment true,
    .secondMoment 5 3 2]

/-- The example state with a stale cache: couple 1 is cached, but the cached
material and index are not those of couple 1 (material 101, index 0). -/
def staleState : G4WentzelVIModel :=
  { exState with currentMaterial := 999, currentMaterialIndex := 7 }

/-- The example state with the second moment enabled and a table holding the
physics vectors 201, 202, 203. -/
def tableState : G4WentzelVIModel :=
  { exState with useSecondMoment := true, fSecondMoments := some [201, 202, 203] }

/-- The calls `SetFixedCut(v1); ...; SetFixedCut(vn)` in order. -/
def setFixedCuts (s : G4WentzelVIModel) (vs : List G4double) : G4WentzelVIModel :=
  vs.foldl SetFixedCut s

/-- The data members of `G4DNAChemistryManager` (lines 210-233 of
`G4DNAChemistryManager.hh`), in declaration order; the static members
`fgInstance`, `fpgOutput_tl` and `fpgThreadInitialized_tl` are kept with the
others.  The constructor is protected and the object is the singleton. -/
structure G4DNAChemistryManager where
  fpChemDNADirectory : Ptr
  fpActivateChem : Ptr
  fpRunChem : Ptr
  fgInstance : Ptr
  fActiveChemistry : Bool
  fFileInitialized : Bool
  fWriteFile : Bool
  fpgOutput_tl : Ptr
  fpgThreadInitialized_tl : Ptr
  fMasterInitialized : Bool
  fForceThreadReinitialization : Bool
  fpExcitationLevel : Ptr
  fpIonisationLevel : Ptr
  fpUserChemistryList : Ptr
  fBuildPhysicsTable : Bool
  fPhysicsTableBuilt : Bool
  fGeometryClosed : Bool
  fVerbose : Int
  deriving DecidableEq

/-- What the inline functions of the manager call outside the header:
`Activated flag m` is the manager after the static member function
`Activated(flag)` (declared at line 106, body not in the header). -/
structure ChemEnv where
  Activated : Bool → G4DNAChemistryManager → G4DNAChemistryManager

/-- The function `G4DNAChemistryManager::SetVerbose` (lines 195-198). -/
def SetVerbose (m : G4DNAChemistryManager) (verbose : Int) : G4DNAChemistryManager :=
  { m with fVerbose := verbose }

/-- The function `G4DNAChemistryManager::ForceRebuildingPhysicsTable`
(lines 236-239). -/
def ForceRebuildingPhysicsTable (m : G4DNAChemistryManager) : G4DNAChemistryManager :=
  { m with fPhysicsTableBuilt := false }

/-- The function `G4DNAChemistryManager::SetChemistryList` (lines 241-245);
`Activated()` is called with its default argument `true`. -/
def SetChemistryList (env : ChemEnv) (m : G4DNAChemistryManager) (chemistryList : Ptr) :
    G4DNAChemistryManager :=
  let m1 := { m with fpUserChemistryList := chemistryList }
  env.Activated true m1

/-- The function `G4DNAChemistryManager::Deregister` (lines 247-250). -/
def Deregister (m : G4DNAChemistryManager) (chemistryList : Ptr) : G4DNAChemistryManager :=
  if m.fpUserChemistryList = chemistryList then { m with fpUserChemistryList := 0 }
  else m

/-- The function `G4DNAChemistryManager::ForceThreadReinitialization`
(lines 258-262). -/
def ForceThreadReinitialization (m : G4DNAChemistryManager) : G4DNAChemistryManager :=
  { m with fForceThreadReinitialization := true }

/-- A manager environment for examples: `Activated(flag)` is a stand-in for
the absent body that stores the flag in `fActiveChemistry`, the flag the class
comment says must be on for the chemistry stage. -/
def exChemEnv : ChemEnv where
  Activated := fun flag m => { m with fActiveChemistry := flag }

/-- A manager for examples: list 7 registered, the physics table built. -/
def exManager : G4DNAChemistryManager where
  fpChemDNADirectory := 11
  fpActivateChem := 12
  fpRunChem := 13
  fgInstance := 10
  fActiveChemistry := false
  fFileInitialized := false
  fWriteFile := false
  fpgOutput_tl := 0
  fpgThreadInitialized_tl := 0
  fMasterInitialized := true
  fForceThreadReinitialization := false
  fpExcitationLevel := 0
  fpIonisationLevel := 0
  fpUserChemistryList := 7
  fBuildPhysicsTable := true
  fPhysicsTableBuilt := true
  fGeometryClosed := false
  fVerbose := 1

/-! ## Shared lemmas -/

theorem DefineMaterial_eq_of_ne (env : Env) (s : G4WentzelVIModel) (c : Ptr)
    (cobj : G4MaterialCutsCouple) (hc : env.deref c = some cobj)
    (hne : c ≠ s.currentCouple) :
    DefineMaterial env s c = some { s with
      currentCouple := c, fCurrentCouple := c,
      currentMaterial := cobj.GetMaterial,
      currentMaterialIndex := cobj.GetIndex } := by
  simp [DefineMaterial, SetCurrentCouple, hne, hc]

theorem DefineMaterial_eq_of_eq (env : Env) (s : G4WentzelVIModel) (c : Ptr)
    (h : c = s.currentCouple) : DefineMaterial env s c = some s := by
  simp [DefineMaterial, h]

/-- After a call of `DefineMaterial` that changed the couple, the cache is
consistent, whatever it was before. -/
theorem CacheConsistent_of_DefineMaterial_ne (env : Env) (s s' : G4WentzelVIModel)
    (c : Ptr) (hne : c ≠ s.currentCouple) (h : DefineMaterial env s c = some s') :
    s'.currentCouple = c ∧ CacheConsistent env s' := by
  cases hc : env.deref c with
  | none => simp [DefineMaterial, SetCurrentCouple, hne, hc] at h
  | some cobj =>
    rw [DefineMaterial_eq_of_ne env s c cobj hc hne] at h
    cases h
    exact ⟨rfl, Or.inr hc⟩

theorem CacheConsistent_DefineMaterial (env : Env) (s s' : G4WentzelVIModel)
    (c : Ptr) (hs : CacheConsistent env s) (h : DefineMaterial env s c = some s') :
    CacheConsistent env s' := by
  by_cases hne : c = s.currentCouple
  · rw [DefineMaterial_eq_of_eq env s c hne] at h
    cases h
    exact hs
  · exact (CacheConsistent_of_DefineMaterial_ne env s s' c hne h).2

/-- The three cached material fields after `SecondMoment` are those after
`DefineMaterial`, or those `ComputeSecondMoment` left. -/
theorem CacheConsistent_SecondMoment (env : Env)
    (hCSM : ∀ t p e v t', env.ComputeSecondMoment t p e = some (v, t') →
      CacheConsistent env t → CacheConsistent env t')
    (s : G4WentzelVIModel) (part c : Ptr) (e : G4double) (r : SecondMomentResult)
    (hs : CacheConsistent env s) (h : SecondMoment env s part c e = some r) :
    CacheConsistent env r.state := by
  unfold SecondMoment at h
  by_cases hu : s.useSecondMoment = true
  · simp only [hu, if_true] at h
    cases hd : DefineMaterial env s c with
    | none => simp [hd] at h
    | some s1 =>
      have h1 := CacheConsistent_DefineMaterial env s s1 c hs hd
      simp only [hd] at h
      cases ht : s1.fSecondMoments with
      | none =>
        simp only [ht] at h
        cases hr : env.ComputeSecondMoment s1 part e with
        | none => simp [hr] at h
        | some vs =>
          obtain ⟨v, s2⟩ := vs
          simp only [hr, Option.some.injEq] at h
          subst h
          exact hCSM s1 part e v s2 hr h1
      | some table =>
        simp only [ht] at h
        repeat' (split at h)
        all_goals (cases h; first | done | exact h1)
  · simp only [hu] at h
    cases h
    exact hs

theorem deref_zero (env : Env) : env.deref 0 = none := by
  simp [Env.deref]

/-- From a consistent cache, `DefineMaterial` on a valid couple returns a state
whose cache describes that couple. -/
theorem DefineMaterial_describes (env : Env) (s : G4WentzelVIModel) (c : Ptr)
    (cobj : G4MaterialCutsCouple) (hs : CacheConsistent env s)
    (hc : env.deref c = some cobj) :
    ∃ s1, DefineMaterial env s c = some s1 ∧ s1.currentCouple = c ∧
      s1.currentMaterial = cobj.GetMaterial ∧
      s1.currentMaterialIndex = cobj.GetIndex ∧ CacheConsistent env s1 := by
  by_cases hne : c = s.currentCouple
  · refine ⟨s, DefineMaterial_eq_of_eq env s c hne, hne.symm, ?_, ?_, hs⟩
    all_goals
      rcases hs with h0 | h1
      · rw [hne, h0, deref_zero] at hc
        cases hc
      · rw [hne, h1] at hc
        cases hc
        rfl
  · exact ⟨_, DefineMaterial_eq_of_ne env s c cobj hc hne, rfl, rfl, rfl, Or.inr hc⟩

theorem SetupParticle_particle (t : G4WentzelVIModel) (p : Ptr) :
    (SetupParticle t p).1.particle = p := by
  by_cases h : p = t.particle <;> simp [SetupParticle, h]

theorem SetupParticle_calls (t : G4WentzelVIModel) (p : Ptr) :
    (SetupParticle t p).2 = if p = t.particle then [] else [Call.wokviSetupParticle p] := by
  by_cases h : p = t.particle <;> simp [SetupParticle, h]

theorem setupParticles_calls (s : G4WentzelVIModel) (ps : List Ptr) :
    (setupParticles s ps).2 =
      (speciesChanges s.particle ps).map Call.wokviSetupParticle := by
  induction ps generalizing s with
  | nil => rfl
  | cons p ps ih =>
    simp only [setupParticles, speciesChanges, ih, SetupParticle_particle, SetupParticle_calls]
    by_cases h : p = s.particle <;> simp [h]

theorem setupParticles_particle (s : G4WentzelVIModel) (ps : List Ptr) :
    (setupParticles s ps).1.particle =
      (s.particle :: ps).getLast (List.cons_ne_nil _ _) := by
  induction ps generalizing s with
  | nil => rfl
  | cons p ps ih =>
    simp only [setupParticles, ih, SetupParticle_particle]
    rw [List.getLast_cons (List.cons_ne_nil p ps)]

/-- The frame of `DefineMaterial`: only the four fields of the material cache
can differ afterwards. -/
theorem DefineMaterial_frame (env : Env) (s s1 : G4WentzelVIModel) (c : Ptr)
    (h : DefineMaterial env s c = some s1) :
    s1 = { s with
      currentCouple := s1.currentCouple, fCurrentCouple := s1.fCurrentCouple,
      currentMaterial := s1.currentMaterial,
      currentMaterialIndex := s1.currentMaterialIndex } := by
  by_cases hne : c = s.currentCouple
  · rw [DefineMaterial_eq_of_eq env s c hne] at h
    cases h
    rfl
  · cases hc : env.deref c with
    | none => simp [DefineMaterial, SetCurrentCouple, hne, hc] at h
    | some cobj =>
      rw [DefineMaterial_eq_of_ne env s c cobj hc hne] at h
      cases h
      rfl

/-- With the second moment disabled `SecondMoment` returns `0.0` at once. -/
theorem SecondMoment_disabled (env : Env) (s : G4WentzelVIModel) (part c : Ptr)
    (e : G4double) (hu : s.useSecondMoment = false) :
    SecondMoment env s part c e = some ⟨0, s, []⟩ := by
  simp [SecondMoment, hu]

/-- The table branch of `SecondMoment`, once `DefineMaterial` and the lookups
have succeeded. -/
theorem SecondMoment_table (env : Env) (s s1 : G4WentzelVIModel) (part c : Ptr)
    (e : G4double) (table : G4PhysicsTable) (di : Int) (pv : Ptr) (f : G4double)
    (hu : s.useSecondMoment = true) (hd : DefineMaterial env s c = some s1)
    (ht : s1.fSecondMoments = some table)
    (hdi : vecAt env.theDensityIdx s1.currentMaterialIndex = some di)
    (hpv : vecAt table di = some pv) (hnz : pv ≠ 0)
    (hf : vecAt env.theDensityFactor s1.currentMaterialIndex = some f) :
    SecondMoment env s part c e =
      some ⟨(env.Value pv e s1.idx2).1 * f / (e * e),
        { s1 with idx2 := (env.Value pv e s1.idx2).2 }, []⟩ := by
  simp [SecondMoment, hu, hd, ht, hdi, hpv, hf, Env.valueAt, hnz]

/-- The table lookup for a couple from a consistent state: the index used is
that of the requested couple. -/
theorem SecondMoment_table_of_couple (env : Env) (s : G4WentzelVIModel) (part c : Ptr)
    (e : G4double) (cobj : G4MaterialCutsCouple) (table : G4PhysicsTable)
    (di : Int) (pv : Ptr) (f : G4double)
    (hu : s.useSecondMoment = true) (ht : s.fSecondMoments = some table)
    (hs : CacheConsistent env s) (hc : env.deref c = some cobj)
    (hdi : vecAt env.theDensityIdx cobj.GetIndex = some di)
    (hpv : vecAt table di = some pv) (hnz : pv ≠ 0)
    (hf : vecAt env.theDensityFactor cobj.GetIndex = some f) :
    ∃ r, SecondMoment env s part c e = some r ∧
      r.value = (env.Value pv e s.idx2).1 * f / (e * e) ∧
      r.state.currentCouple = c ∧ r.calls = [] := by
  obtain ⟨s1, hd, hcur, _, hidx, _⟩ := DefineMaterial_describes env s c cobj hs hc
  have hfr := DefineMaterial_frame env s s1 c hd
  have ht1 : s1.fSecondMoments = some table := by rw [hfr]; exact ht
  have hi1 : s1.idx2 = s.idx2 := by rw [hfr]
  rw [← hidx] at hdi hf
  refine ⟨_, SecondMoment_table env s s1 part c e table di pv f hu hd ht1 hdi hpv hnz hf,
    ?_, hcur, rfl⟩
  simp only [hi1]

/-- The branch of `SecondMoment` without a table, once `DefineMaterial` and
`ComputeSecondMoment` have returned. -/
theorem SecondMoment_no_table (env : Env) (s s1 s2 : G4WentzelVIModel) (part c : Ptr)
    (e v : G4double) (hu : s.useSecondMoment = true) (ht : s.fSecondMoments = none)
    (hd : DefineMaterial env s c = some s1)
    (hr : env.ComputeSecondMoment s1 part e = some (v, s2)) :
    SecondMoment env s part c e = some ⟨v, s2, [Call.computeSecondMoment part e]⟩ := by
  have hfr := DefineMaterial_frame env s s1 c hd
  have ht1 : s1.fSecondMoments = none := by rw [hfr]; exact ht
  simp [SecondMoment, hu, hd, ht1, hr]

/-- A null or dangling couple that is not the cached one stops `SecondMoment`
in `DefineMaterial` when the second moment is enabled. -/
theorem SecondMoment_invalid_couple (env : Env) (s : G4WentzelVIModel) (part c : Ptr)
    (e : G4double) (hu : s.useSecondMoment = true) (hne : c ≠ s.currentCouple)
    (hc : env.deref c = none) : SecondMoment env s part c e = none := by
  simp [SecondMoment, hu, DefineMaterial, SetCurrentCouple, hne, hc]

theorem setFixedCuts_eq (s : G4WentzelVIModel) (vs : List G4double) :
    setFixedCuts s vs =
      { s with fixedCut := (s.fixedCut :: vs).getLast (List.cons_ne_nil _ _) } := by
  induction vs generalizing s with
  | nil => rfl
  | cons v vs ih =>
    rw [List.getLast_cons (List.cons_ne_nil v vs)]
    simp only [setFixedCuts, List.foldl_cons] at ih ⊢
    rw [ih (SetFixedCut s v)]
    rfl

/-- From a consistent cache, a non-empty sequence of `DefineMaterial` calls on
valid couples returns and leaves the cache describing the last couple. -/
theorem defineMaterials_of_consistent (env : Env) (cs : List Ptr) (hne : cs ≠ [])
    (hvalid : ∀ c ∈ cs, ∃ cobj, env.deref c = some cobj)
    (s : G4WentzelVIModel) (hs : CacheConsistent env s) :
    ∃ s' cobj, defineMaterials env s cs = some s' ∧
      env.deref (cs.getLast hne) = some cobj ∧
      s'.currentCouple = cs.getLast hne ∧
      s'.currentMaterial = cobj.GetMaterial ∧
      s'.currentMaterialIndex = cobj.GetIndex := by
  induction cs generalizing s with
  | nil => exact absurd rfl hne
  | cons c cs ih =>
    obtain ⟨cobj, hc⟩ := hvalid c (List.mem_cons_self c cs)
    obtain ⟨s1, hd, hcur, hmat, hidx, hs1⟩ := DefineMaterial_describes env s c cobj hs hc
    cases cs with
    | nil => exact ⟨s1, cobj, by simp [defineMaterials, hd], by simpa using hc, hcur, hmat, hidx⟩
    | cons c2 rest =>
      obtain ⟨s', cobj', hrun, hlast, h1, h2, h3⟩ :=
        ih (List.cons_ne_nil c2 rest)
          (fun x hx => hvalid x (List.mem_cons_of_mem c hx)) s1 hs1
      refine ⟨s', cobj', ?_, ?_, ?_, h2, h3⟩
      · rw [defineMaterials, hd]
        exact hrun
      · rw [List.getLast_cons (List.cons_ne_nil c2 rest)]
        exact hlast
      · rw [List.getLast_cons (List.cons_ne_nil c2 rest)]
        exact h1

/-- A sequence of `DefineMaterial` calls that all name the cached couple
changes nothing. -/
theorem defineMaterials_all_cached (env : Env) (cs : List Ptr) (s : G4WentzelVIModel)
    (hall : ∀ c ∈ cs, c = s.currentCouple) : defineMaterials env s cs = some s := by
  induction cs with
  | nil => rfl
  | cons c cs ih =>
    rw [defineMaterials,
      DefineMaterial_eq_of_eq env s c (hall c (List.mem_cons_self c cs))]
    exact ih (fun x hx => hall x (List.mem_cons_of_mem c hx))

/-- A sequence of `DefineMaterial` calls on valid couples, one of which is not
the cached couple, returns and leaves the cache describing the last couple,
whatever the cache held before. -/
theorem defineMaterials_of_change (env : Env) (cs : List Ptr) (hne : cs ≠ [])
    (hvalid : ∀ c ∈ cs, ∃ cobj, env.deref c = some cobj)
    (s : G4WentzelVIModel) (hch : ∃ c ∈ cs, c ≠ s.currentCouple) :
    ∃ s' cobj, defineMaterials env s cs = some s' ∧
      env.deref (cs.getLast hne) = some cobj ∧
      s'.currentCouple = cs.getLast hne ∧
      s'.currentMaterial = cobj.GetMaterial ∧
      s'.currentMaterialIndex = cobj.GetIndex := by
  induction cs generalizing s with
  | nil => exact absurd rfl hne
  | cons c rest ih =>
    by_cases hcc : c = s.currentCouple
    · obtain ⟨x, hx, hxne⟩ := hch
      have hxr : x ∈ rest := by
        rcases List.mem_cons.mp hx with h | h
        · exact absurd (h.trans hcc) hxne
        · exact h
      have hrne : rest ≠ [] := List.ne_nil_of_mem hxr
      obtain ⟨s', cobj', hrun, hlast, h1, h2, h3⟩ :=
        ih hrne (fun y hy => hvalid y (List.mem_cons_of_mem c hy)) s ⟨x, hxr, hxne⟩
      refine ⟨s', cobj', ?_, ?_, ?_, h2, h3⟩
      · rw [defineMaterials, DefineMaterial_eq_of_eq env s c hcc]
        exact hrun
      · rw [List.getLast_cons hrne]
        exact hlast
      · rw [List.getLast_cons hrne]
        exact h1
    · obtain ⟨cobj, hc⟩ := hvalid c (List.mem_cons_self c rest)
      have hd := DefineMaterial_eq_of_ne env s c cobj hc hcc
      cases rest with
      | nil =>
        exact ⟨{ s with
            currentCouple := c, fCurrentCouple := c,
            currentMaterial := cobj.GetMaterial,
            currentMaterialIndex := cobj.GetIndex }, cobj,
          by rw [defineMaterials, hd]; rfl, by simpa using hc, rfl, rfl, rfl⟩
      | cons c2 rest2 =>
        obtain ⟨s', cobj', hrun, hlast, h1, h2, h3⟩ :=
          defineMaterials_of_consistent env (c2 :: rest2) (List.cons_ne_nil c2 rest2)
            (fun y hy => hvalid y (List.mem_cons_of_mem c hy)) _
            (CacheConsistent_of_DefineMaterial_ne env s _ c hcc hd).2
        refine ⟨s', cobj', ?_, ?_, ?_, h2, h3⟩
        · rw [defineMaterials, hd]
          exact hrun
        · rw [List.getLast_cons (List.cons_ne_nil c2 rest2)]
          exact hlast
        · rw [List.getLast_cons (List.cons_ne_nil c2 rest2)]
          exact h1

/-! ## Claims -/

/-- C1: `DefineMaterial(c)` with `c` the cached couple is a no-op: it returns
and the resulting state equals the starting state in every field. -/
theorem DefineMaterial_same_couple (env : Env) (s : G4WentzelVIModel) (c : Ptr)
    (h : c = s.currentCouple) : DefineMaterial env s c = some s :=
  DefineMaterial_eq_of_eq env s c h

/-- Witness of C1 on the example state, whose cached couple is 1. -/
theorem DefineMaterial_same_couple_witness :
    (1 : Ptr) = exState.currentCouple ∧ DefineMaterial exEnv exState 1 = some exState :=
  ⟨rfl, DefineMaterial_same_couple exEnv exState 1 rfl⟩

/-- C2, counterexample: in the example state the single-scattering working set
was built for couple 1; after `DefineMaterial` on the different couple 2 the
cache is refreshed but `xtsec`, `xsecn`, `prob` and `nelments` still hold
exactly the values built for couple 1. -/
theorem DefineMaterial_keeps_working_set_example :
    (2 : Ptr) ≠ exState.currentCouple ∧
    ∃ s', DefineMaterial exEnv exState 2 = some s' ∧
      s'.currentCouple = 2 ∧
      s'.xtsec = 7 ∧ s'.xsecn = [3, 7] ∧ s'.prob = [1, 0] ∧ s'.nelments = 2 ∧
      (s'.xtsec, s'.xsecn, s'.prob, s'.nelments) =
        (exState.xtsec, exState.xsecn, exState.prob, exState.nelments) := by
  refine ⟨by decide, _, DefineMaterial_eq_of_ne exEnv exState 2 ⟨102, 1⟩ rfl (by decide), ?_⟩
  simp [exState]

/-- C2, amended: for a non-null couple `c` (pointing to the couple `cobj`)
different from the cached one, `DefineMaterial(c)` returns, refreshes the cache
(`currentCouple`, the base-class couple, `currentMaterial`,
`currentMaterialIndex`) and leaves the single-scattering working set
(`xtsec`, `xsecn`, `prob`, `nelments`) as it was. -/
theorem DefineMaterial_refreshes_cache (env : Env) (s : G4WentzelVIModel) (c : Ptr)
    (cobj : G4MaterialCutsCouple) (hc : env.deref c = some cobj)
    (hne : c ≠ s.currentCouple) :
    ∃ s', DefineMaterial env s c = some s' ∧
      s'.currentCouple = c ∧ s'.fCurrentCouple = c ∧
      s'.currentMaterial = cobj.GetMaterial ∧
      s'.currentMaterialIndex = cobj.GetIndex ∧
      s'.xtsec = s.xtsec ∧ s'.xsecn = s.xsecn ∧ s'.prob = s.prob ∧
      s'.nelments = s.nelments :=
  ⟨_, DefineMaterial_eq_of_ne env s c cobj hc hne, rfl, rfl, rfl, rfl, rfl, rfl, rfl, rfl⟩

/-- Witness of the amended C2: couple 2 in the example state. -/
theorem DefineMaterial_refreshes_cache_witness :
    exEnv.deref 2 = some ⟨102, 1⟩ ∧ (2 : Ptr) ≠ exState.currentCouple ∧
    ∃ s', DefineMaterial exEnv exState 2 = some s' ∧
      s'.currentCouple = 2 ∧ s'.fCurrentCouple = 2 ∧
      s'.currentMaterial = 102 ∧ s'.currentMaterialIndex = 1 ∧
      s'.xtsec = exState.xtsec ∧ s'.xsecn = exState.xsecn ∧ s'.prob = exState.prob ∧
      s'.nelments = exState.nelments :=
  ⟨rfl, by decide,
    DefineMaterial_refreshes_cache exEnv exState 2 ⟨102, 1⟩ rfl (by decide)⟩

/-- C3: material-cache consistency is preserved by every inline operation
(`DefineMaterial`, `SetupParticle`, `SetFixedCut`, `SetUseSecondMoment`,
`SecondMoment`) and therefore holds in every state reached by a sequence of
them from a consistent state; the out-of-line `ComputeSecondMoment`, which
`SecondMoment` calls when there is no table, is assumed to preserve it. -/
theorem CacheConsistent_reachable (env : Env)
    (hCSM : ∀ t p e v t', env.ComputeSecondMoment t p e = some (v, t') →
      CacheConsistent env t → CacheConsistent env t')
    (ops : List Op) (s s' : G4WentzelVIModel)
    (hs : CacheConsistent env s) (h : runOps env s ops = some s') :
    CacheConsistent env s' := by
  induction ops generalizing s with
  | nil =>
    simp only [runOps, Option.some.injEq] at h
    exact h ▸ hs
  | cons op ops ih =>
    simp only [runOps] at h
    cases hop : op.apply env s with
    | none => simp [hop] at h
    | some s1 =>
      simp only [hop] at h
      refine ih s1 ?_ h
      cases op with
      | defineMaterial cup => exact CacheConsistent_DefineMaterial env s s1 cup hs hop
      | setupParticle p =>
        simp only [Op.apply, SetupParticle, Option.some.injEq] at hop
        subst hop
        by_cases hp : p = s.particle <;> simpa [CacheConsistent, hp] using hs
      | setFixedCut val =>
        simp only [Op.apply, SetFixedCut, Option.some.injEq] at hop
        subst hop
        exact hs
      | setUseSecondMoment val =>
        simp only [Op.apply, SetUseSecondMoment, Option.some.injEq] at hop
        subst hop
        exact hs
      | secondMoment part couple ekin =>
        simp only [Op.apply, Option.map_eq_some'] at hop
        obtain ⟨r, hr, rfl⟩ := hop
        exact CacheConsistent_SecondMoment env hCSM s part couple ekin r hs hr

/-- Witness of C3: the example operations run from the example state end in a
state that caches couple 3 consistently. -/
theorem CacheConsistent_reachable_witness :
    CacheConsistent exEnv exState ∧
    ∃ s', runOps exEnv exState exOps = some s' ∧ s'.currentCouple = 3 ∧
      CacheConsistent exEnv s' := by
  have hrun : ∃ s', runOps exEnv exState exOps = some s' ∧ s'.currentCouple = 3 :=
    ⟨_, rfl, rfl⟩
  obtain ⟨s', hs', hc⟩ := hrun
  have h0 : CacheConsistent exEnv exState := by decide
  exact ⟨h0, s', hs', hc,
    CacheConsistent_reachable exEnv
      (fun t _ _ _ t' hr ht => by
        simp only [exEnv, Option.some.injEq, Prod.mk.injEq] at hr
        exact hr.2 ▸ ht)
      exOps exState s' h0 hs'⟩

/-- C4, counterexample: the stale state caches couple 1 with material 999 and
index 7, while couple 1 has material 101 and index 0.  The one-call sequence
`DefineMaterial(1)` finds the couple unchanged and returns at once: afterwards
the cache still holds 999 and 7 and does not describe couple 1. -/
theorem defineMaterials_stale_example :
    exEnv.deref 1 = some ⟨101, 0⟩ ∧
    ∃ s', defineMaterials exEnv staleState [1] = some s' ∧
      s'.currentCouple = 1 ∧ s'.currentMaterial = 999 ∧ s'.currentMaterialIndex = 7 ∧
      s'.currentMaterial ≠ 101 ∧ s'.currentMaterialIndex ≠ 0 :=
  ⟨rfl, staleState, rfl, rfl, rfl, rfl, by decide, by decide⟩

/-- C4, amended: for every state and every non-empty sequence of non-null
couples, the calls `DefineMaterial(c1)`, ..., `DefineMaterial(cn)` all return
and the cache afterwards describes the last couple (`currentCouple = cn`,
`currentMaterial = cn.GetMaterial()`, `currentMaterialIndex = cn.GetIndex()`)
exactly when some `ci` differs from the couple cached at the start or the
cache at the start was consistent.  So a stale cache is healed by any sequence
that changes the couple; only a sequence naming nothing but the stale cached
couple leaves it stale. -/
theorem defineMaterials_describes_last (env : Env) (cs : List Ptr) (hne : cs ≠ [])
    (hvalid : ∀ c ∈ cs, ∃ cobj, env.deref c = some cobj)
    (s : G4WentzelVIModel) :
    (∃ s' cobj, defineMaterials env s cs = some s' ∧
      env.deref (cs.getLast hne) = some cobj ∧
      s'.currentCouple = cs.getLast hne ∧
      s'.currentMaterial = cobj.GetMaterial ∧
      s'.currentMaterialIndex = cobj.GetIndex) ↔
    ((∃ c ∈ cs, c ≠ s.currentCouple) ∨ CacheConsistent env s) := by
  constructor
  · rintro ⟨s', cobj, hrun, hlast, hcur, hmat, hidx⟩
    by_cases hch : ∃ c ∈ cs, c ≠ s.currentCouple
    · exact Or.inl hch
    · right
      have hall : ∀ c ∈ cs, c = s.currentCouple := fun c hc =>
        Classical.not_not.mp (fun hcne => hch ⟨c, hc, hcne⟩)
      rw [defineMaterials_all_cached env cs s hall] at hrun
      cases hrun
      right
      rw [hcur, hlast, hmat, hidx]
  · rintro (hch | hs)
    · exact defineMaterials_of_change env cs hne hvalid s hch
    · exact defineMaterials_of_consistent env cs hne hvalid s hs

/-- Witness of the amended C4: the stale state caches couple 1 with the wrong
material and index; the sequence 1, 2, 3 (the first call finds the cached
couple and does nothing, the second changes the couple) ends with the cache
describing couple 3. -/
theorem defineMaterials_describes_last_witness :
    ¬ CacheConsistent exEnv staleState ∧
    ∃ s' cobj, defineMaterials exEnv staleState [1, 2, 3] = some s' ∧
      exEnv.deref ([1, 2, 3].getLast (by decide)) = some cobj ∧
      s'.currentCouple = [1, 2, 3].getLast (by decide) ∧
      s'.currentMaterial = cobj.GetMaterial ∧
      s'.currentMaterialIndex = cobj.GetIndex :=
  ⟨by decide,
    (defineMaterials_describes_last exEnv [1, 2, 3] (by decide)
      (by
        intro c hc
        simp only [List.mem_cons, List.mem_singleton, List.not_mem_nil, or_false] at hc
        rcases hc with rfl | rfl | rfl
        · exact ⟨⟨101, 0⟩, rfl⟩
        · exact ⟨⟨102, 1⟩, rfl⟩
        · exact ⟨⟨103, 2⟩, rfl⟩)
      staleState).mpr (Or.inl ⟨2, by decide, by decide⟩)⟩

/-- C5: every call `SetupParticle(p)` leaves `p` as the cached particle and
calls `wokvi->SetupParticle(p)` exactly once when `p` differs from the particle
cached immediately before the call, and not at all when it equals it; so over
a sequence of calls the recomputations are exactly the species changes of the
sequence, their number is the number of species changes, and the particle
cached at the end is the last argument. -/
theorem SetupParticle_once_per_species_change (s : G4WentzelVIModel) (ps : List Ptr) :
    (∀ (t : G4WentzelVIModel) (p : Ptr),
      (SetupParticle t p).1.particle = p ∧
      (SetupParticle t p).2 =
        if p = t.particle then [] else [Call.wokviSetupParticle p]) ∧
    (setupParticles s ps).2 =
      (speciesChanges s.particle ps).map Call.wokviSetupParticle ∧
    (setupParticles s ps).2.length = (speciesChanges s.particle ps).length ∧
    (setupParticles s ps).1.particle =
      (s.particle :: ps).getLast (List.cons_ne_nil _ _) :=
  ⟨fun t p => ⟨SetupParticle_particle t p, SetupParticle_calls t p⟩,
    setupParticles_calls s ps,
    by rw [setupParticles_calls, List.length_map],
    setupParticles_particle s ps⟩

/-- C6: with `useSecondMoment` true and a table present, from a consistent
cache, for a non-null couple `c` and an energy `e ≠ 0`, `SecondMoment(part, c, e)`
returns `table[theDensityIdx[c.GetIndex()]]->Value(e, idx2) *
theDensityFactor[c.GetIndex()] / (e*e)`, with the index of the requested couple,
and afterwards the cached couple is `c`.  The vectors are assumed to have the
entries the expression reads. -/
theorem SecondMoment_interpolates_table (env : Env) (s : G4WentzelVIModel)
    (part c : Ptr) (e : G4double) (cobj : G4MaterialCutsCouple)
    (table : G4PhysicsTable) (di : Int) (pv : Ptr) (f : G4double)
    (hu : s.useSecondMoment = true) (ht : s.fSecondMoments = some table)
    (hs : CacheConsistent env s) (hc : env.deref c = some cobj) (_he : e ≠ 0)
    (hdi : vecAt env.theDensityIdx cobj.GetIndex = some di)
    (hpv : vecAt table di = some pv) (hnz : pv ≠ 0)
    (hf : vecAt env.theDensityFactor cobj.GetIndex = some f) :
    ∃ r, SecondMoment env s part c e = some r ∧
      r.value = (env.Value pv e s.idx2).1 * f / (e * e) ∧
      r.state.currentCouple = c := by
  obtain ⟨r, hr, hv, hcur, _⟩ :=
    SecondMoment_table_of_couple env s part c e cobj table di pv f hu ht hs hc hdi hpv hnz hf
  exact ⟨r, hr, hv, hcur⟩

/-- Witness of C6: the table state caches couple 1 and is asked for couple 2
(index 1) at energy 2: the value is that of vector 202, `(2 + 2) * 3 / (2 * 2)`,
and not that of the cached couple's vector 201. -/
theorem SecondMoment_interpolates_table_witness :
    tableState.useSecondMoment = true ∧ CacheConsistent exEnv tableState ∧
    ∃ r, SecondMoment exEnv tableState 5 2 2 = some r ∧
      r.value = (exEnv.Value 202 2 tableState.idx2).1 * 3 / (2 * 2) ∧
      r.state.currentCouple = 2 :=
  ⟨rfl, by decide,
    SecondMoment_interpolates_table exEnv tableState 5 2 2 ⟨102, 1⟩ [201, 202, 203] 1 202 3
      rfl rfl (by decide) rfl (by norm_num) rfl rfl (by decide) rfl⟩

/-- C8, counterexample: no argument is checked.  With a table, the negative
energy `-1` for couple 2 returns the number `(-1 + 2) * 3 / ((-1) * (-1)) = 3`;
with the second moment disabled, the null couple with energy `0`, and with
energy `-1`, returns `0.0` and leaves the state as it is. -/
theorem SecondMoment_negative_energy_example :
    (∃ r, SecondMoment exEnv tableState 5 2 (-1) = some r ∧ r.value = 3) ∧
    SecondMoment exEnv exState 5 0 0 = some ⟨0, exState, []⟩ ∧
    SecondMoment exEnv exState 5 0 (-1) = some ⟨0, exState, []⟩ := by
  refine ⟨⟨_, rfl, ?_⟩, rfl, rfl⟩
  simp [exEnv]
  norm_num

/-- C8, amended: `SecondMoment` checks none of its arguments.  With
`useSecondMoment` false it returns `0.0` and leaves the state unchanged for
every couple (null included) and every energy (negative and zero included).
With `useSecondMoment` true, a table, a consistent cache and a non-null couple
`c`, a negative energy is treated like any other: the call returns
`table[theDensityIdx[c.GetIndex()]]->Value(e, idx2) *
theDensityFactor[c.GetIndex()] / (e*e)`.  No result is produced when
`useSecondMoment` is true and the couple is null (or dangling) and not the
cached one: `DefineMaterial` dereferences it. -/
theorem SecondMoment_checks_no_argument (env : Env) (s : G4WentzelVIModel)
    (part c : Ptr) (e : G4double) :
    (s.useSecondMoment = false → SecondMoment env s part c e = some ⟨0, s, []⟩) ∧
    (s.useSecondMoment = true → c ≠ s.currentCouple → env.deref c = none →
      SecondMoment env s part c e = none) ∧
    (∀ (cobj : G4MaterialCutsCouple) (table : G4PhysicsTable) (di : Int) (pv : Ptr)
        (f : G4double),
      e < 0 → s.useSecondMoment = true → s.fSecondMoments = some table →
      CacheConsistent env s → env.deref c = some cobj →
      vecAt env.theDensityIdx cobj.GetIndex = some di →
      vecAt table di = some pv → pv ≠ 0 →
      vecAt env.theDensityFactor cobj.GetIndex = some f →
      ∃ r, SecondMoment env s part c e = some r ∧
        r.value = (env.Value pv e s.idx2).1 * f / (e * e)) := by
  refine ⟨SecondMoment_disabled env s part c e, SecondMoment_invalid_couple env s part c e, ?_⟩
  intro cobj table di pv f _ hu ht hs hc hdi hpv hnz hf
  obtain ⟨r, hr, hv, _⟩ :=
    SecondMoment_table_of_couple env s part c e cobj table di pv f hu ht hs hc hdi hpv hnz hf
  exact ⟨r, hr, hv⟩

/-- Witness of the amended C8: the disabled example state with the null couple
and energy `-1`; the table state with the null couple; the table state with
couple 2 and energy `-1`. -/
theorem SecondMoment_checks_no_argument_witness :
    SecondMoment exEnv exState 5 0 (-1) = some ⟨0, exState, []⟩ ∧
    SecondMoment exEnv tableState 5 0 (-1) = none ∧
    ∃ r, SecondMoment exEnv tableState 5 2 (-1) = some r ∧
      r.value = (exEnv.Value 202 (-1) tableState.idx2).1 * 3 / ((-1) * (-1)) :=
  ⟨(SecondMoment_checks_no_argument exEnv exState 5 0 (-1)).1 rfl,
    (SecondMoment_checks_no_argument exEnv tableState 5 0 (-1)).2.1 rfl (by decide) rfl,
    (SecondMoment_checks_no_argument exEnv tableState 5 2 (-1)).2.2
      ⟨102, 1⟩ [201, 202, 203] 1 202 3 (by norm_num) rfl rfl (by decide) rfl rfl rfl
      (by decide) rfl⟩

/-- C9: in a state with a table, a call of `SecondMoment` that returns leaves
the table (pointer and entries), `useSecondMoment`, `fixedCut` and the cached
particle unchanged; the state afterwards differs from the state before at most
in the material cache (`currentCouple`, the base-class couple,
`currentMaterial`, `currentMaterialIndex`) and the hint `idx2`, and no call is
made on `wokvi` or `ComputeSecondMoment`. -/
theorem SecondMoment_table_frame (env : Env) (s : G4WentzelVIModel) (part c : Ptr)
    (e : G4double) (r : SecondMomentResult) (ht : s.fSecondMoments ≠ none)
    (h : SecondMoment env s part c e = some r) :
    GetSecondMomentTable r.state = GetSecondMomentTable s ∧
    UseSecondMoment r.state = UseSecondMoment s ∧
    GetFixedCut r.state = GetFixedCut s ∧
    r.state.particle = s.particle ∧
    r.state = { s with
      currentCouple := r.state.currentCouple,
      fCurrentCouple := r.state.fCurrentCouple,
      currentMaterial := r.state.currentMaterial,
      currentMaterialIndex := r.state.currentMaterialIndex,
      idx2 := r.state.idx2 } ∧
    r.calls = [] := by
  have key : r.state = { s with
      currentCouple := r.state.currentCouple,
      fCurrentCouple := r.state.fCurrentCouple,
      currentMaterial := r.state.currentMaterial,
      currentMaterialIndex := r.state.currentMaterialIndex,
      idx2 := r.state.idx2 } ∧ r.calls = [] := by
    by_cases hu : s.useSecondMoment = true
    · cases hd : DefineMaterial env s c with
      | none => simp [SecondMoment, hu, hd] at h
      | some s1 =>
        have hfr := DefineMaterial_frame env s s1 c hd
        cases ht1 : s1.fSecondMoments with
        | none =>
          rw [hfr] at ht1
          exact absurd ht1 ht
        | some table =>
          cases hdi : vecAt env.theDensityIdx s1.currentMaterialIndex with
          | none => simp [SecondMoment, hu, hd, ht1, hdi] at h
          | some di =>
            cases hpv : vecAt table di with
            | none => simp [SecondMoment, hu, hd, ht1, hdi, hpv] at h
            | some pv =>
              by_cases hnz : pv = 0
              · simp [SecondMoment, hu, hd, ht1, hdi, hpv, Env.valueAt, hnz] at h
              · cases hf : vecAt env.theDensityFactor s1.currentMaterialIndex with
                | none => simp [SecondMoment, hu, hd, ht1, hdi, hpv, Env.valueAt, hnz, hf] at h
                | some f =>
                  rw [SecondMoment_table env s s1 part c e table di pv f hu hd ht1 hdi hpv
                    hnz hf] at h
                  cases h
                  exact ⟨congrArg
                    (fun t : G4WentzelVIModel =>
                      { t with idx2 := (env.Value pv e s1.idx2).2 }) hfr, rfl⟩
    · rw [SecondMoment_disabled env s part c e (by simpa using hu)] at h
      cases h
      exact ⟨rfl, rfl⟩
  obtain ⟨hst, hcalls⟩ := key
  refine ⟨?_, ?_, ?_, ?_, hst, hcalls⟩
  · rw [hst]; rfl
  · rw [hst]; rfl
  · rw [hst]; rfl
  · rw [hst]

/-- Witness of C9: the table state asked for couple 2 at energy 2. -/
theorem SecondMoment_table_frame_witness :
    tableState.fSecondMoments ≠ none ∧
    ∃ r, SecondMoment exEnv tableState 5 2 2 = some r ∧
      GetSecondMomentTable r.state = GetSecondMomentTable tableState ∧
      UseSecondMoment r.state = UseSecondMoment tableState ∧
      GetFixedCut r.state = GetFixedCut tableState ∧
      r.state.particle = tableState.particle ∧
      r.state = { tableState with
        currentCouple := r.state.currentCouple,
        fCurrentCouple := r.state.fCurrentCouple,
        currentMaterial := r.state.currentMaterial,
        currentMaterialIndex := r.state.currentMaterialIndex,
        idx2 := r.state.idx2 } ∧
      r.calls = [] :=
  ⟨by decide, _, rfl,
    SecondMoment_table_frame exEnv tableState 5 2 2 _ (by decide) rfl⟩

/-- C11: the fixed cut round-trips: `GetFixedCut()` after `SetFixedCut(v)`
returns `v`; after several `SetFixedCut` calls it returns the value of the
last one; and `SetFixedCut` changes no field other than `fixedCut`, in
particular not the material cache, the cached particle or `useSecondMoment`. -/
theorem SetFixedCut_round_trip (s : G4WentzelVIModel) (v : G4double)
    (vs : List G4double) :
    GetFixedCut (SetFixedCut s v) = v ∧
    GetFixedCut (setFixedCuts s (v :: vs)) =
      (v :: vs).getLast (List.cons_ne_nil _ _) ∧
    SetFixedCut s v = { s with fixedCut := GetFixedCut (SetFixedCut s v) } ∧
    setFixedCuts s (v :: vs) =
      { s with fixedCut := GetFixedCut (setFixedCuts s (v :: vs)) } ∧
    (SetFixedCut s v).currentCouple = s.currentCouple ∧
    (SetFixedCut s v).fCurrentCouple = s.fCurrentCouple ∧
    (SetFixedCut s v).currentMaterial = s.currentMaterial ∧
    (SetFixedCut s v).currentMaterialIndex = s.currentMaterialIndex ∧
    (SetFixedCut s v).particle = s.particle ∧
    UseSecondMoment (SetFixedCut s v) = UseSecondMoment s := by
  have h := setFixedCuts_eq s (v :: vs)
  rw [List.getLast_cons (List.cons_ne_nil v vs)] at h
  refine ⟨rfl, ?_, rfl, ?_, rfl, rfl, rfl, rfl, rfl, rfl⟩
  · rw [h]; rfl
  · rw [h]; rfl

/-- C12: `ForceRebuildingPhysicsTable()` marks the table not built whatever
the flag was, leaves every other field of the manager unchanged, and is
idempotent. -/
theorem ForceRebuildingPhysicsTable_invalidates (m : G4DNAChemistryManager) :
    (ForceRebuildingPhysicsTable m).fPhysicsTableBuilt = false ∧
    ForceRebuildingPhysicsTable m =
      { m with fPhysicsTableBuilt := (ForceRebuildingPhysicsTable m).fPhysicsTableBuilt } ∧
    (ForceRebuildingPhysicsTable m).fBuildPhysicsTable = m.fBuildPhysicsTable ∧
    (ForceRebuildingPhysicsTable m).fMasterInitialized = m.fMasterInitialized ∧
    (ForceRebuildingPhysicsTable m).fActiveChemistry = m.fActiveChemistry ∧
    (ForceRebuildingPhysicsTable m).fpUserChemistryList = m.fpUserChemistryList ∧
    (ForceRebuildingPhysicsTable m).fVerbose = m.fVerbose ∧
    ForceRebuildingPhysicsTable (ForceRebuildingPhysicsTable m) =
      ForceRebuildingPhysicsTable m :=
  ⟨rfl, rfl, rfl, rfl, rfl, rfl, rfl, rfl⟩

/-- C13: with `useSecondMoment` false, `SecondMoment(part, c, e)` returns
exactly `0.0` for every couple and energy and leaves the whole state unchanged:
the material cache is not switched to `c`, no call is made on
`ComputeSecondMoment`, and the result does not depend on the couples, the
density vectors or the table entries. -/
theorem SecondMoment_zero_when_disabled (env : Env) (s : G4WentzelVIModel)
    (part c : Ptr) (e : G4double) (hu : UseSecondMoment s = false) :
    SecondMoment env s part c e = some ⟨0, s, []⟩ ∧
    ∀ env' : Env, SecondMoment env' s part c e = SecondMoment env s part c e :=
  ⟨SecondMoment_disabled env s part c e hu,
    fun env' => by
      rw [SecondMoment_disabled env s part c e hu, SecondMoment_disabled env' s part c e hu]⟩

/-- Witness of C13 on the example state, which caches couple 1: the null
couple with energy `0`, and couple 2 with energy `-3`. -/
theorem SecondMoment_zero_when_disabled_witness :
    UseSecondMoment exState = false ∧
    SecondMoment exEnv exState 5 0 0 = some ⟨0, exState, []⟩ ∧
    SecondMoment exEnv exState 5 2 (-3) = some ⟨0, exState, []⟩ :=
  ⟨rfl, (SecondMoment_zero_when_disabled exEnv exState 5 0 0 rfl).1,
    (SecondMoment_zero_when_disabled exEnv exState 5 2 (-3) rfl).1⟩

/-- C14: for a non-null couple `c`, `DefineMaterial(c)` returns, applying it
again to the result changes nothing, and the result agrees with the starting
state on the cached particle, `fixedCut`, `useSecondMoment`, the second-moment
table and the step kinematics; it differs from the starting state at most in
`currentCouple`, the base-class couple, `currentMaterial` and
`currentMaterialIndex`. -/
theorem DefineMaterial_idempotent (env : Env) (s : G4WentzelVIModel) (c : Ptr)
    (cobj : G4MaterialCutsCouple) (hc : env.deref c = some cobj) :
    ∃ s1, DefineMaterial env s c = some s1 ∧
      DefineMaterial env s1 c = some s1 ∧
      s1.particle = s.particle ∧ GetFixedCut s1 = GetFixedCut s ∧
      UseSecondMoment s1 = UseSecondMoment s ∧
      GetSecondMomentTable s1 = GetSecondMomentTable s ∧
      s1.tPathLength = s.tPathLength ∧ s1.zPathLength = s.zPathLength ∧
      s1.lambdaeff = s.lambdaeff ∧ s1.currentRange = s.currentRange ∧
      s1.preKinEnergy = s.preKinEnergy ∧
      s1 = { s with
        currentCouple := s1.currentCouple, fCurrentCouple := s1.fCurrentCouple,
        currentMaterial := s1.currentMaterial,
        currentMaterialIndex := s1.currentMaterialIndex } := by
  by_cases hne : c = s.currentCouple
  · have h := DefineMaterial_eq_of_eq env s c hne
    exact ⟨s, h, h, rfl, rfl, rfl, rfl, rfl, rfl, rfl, rfl, rfl, rfl⟩
  · exact ⟨_, DefineMaterial_eq_of_ne env s c cobj hc hne,
      DefineMaterial_eq_of_eq env _ c rfl, rfl, rfl, rfl, rfl, rfl, rfl, rfl, rfl, rfl, rfl⟩

/-- Witness of C14: couple 3 in the example state, which caches couple 1. -/
theorem DefineMaterial_idempotent_witness :
    exEnv.deref 3 = some ⟨103, 2⟩ ∧
    ∃ s1, DefineMaterial exEnv exState 3 = some s1 ∧
      DefineMaterial exEnv s1 3 = some s1 ∧
      s1.particle = exState.particle ∧ GetFixedCut s1 = GetFixedCut exState ∧
      UseSecondMoment s1 = UseSecondMoment exState ∧
      GetSecondMomentTable s1 = GetSecondMomentTable exState ∧
      s1.tPathLength = exState.tPathLength ∧ s1.zPathLength = exState.zPathLength ∧
      s1.lambdaeff = exState.lambdaeff ∧ s1.currentRange = exState.currentRange ∧
      s1.preKinEnergy = exState.preKinEnergy ∧
      s1 = { exState with
        currentCouple := s1.currentCouple, fCurrentCouple := s1.fCurrentCouple,
        currentMaterial := s1.currentMaterial,
        currentMaterialIndex := s1.currentMaterialIndex } :=
  ⟨rfl, DefineMaterial_idempotent exEnv exState 3 ⟨103, 2⟩ rfl⟩

/-- C15: `Deregister(l)` sets the registered list to null when `l` is the
registered list and otherwise leaves the manager as it is; in both cases no
field other than `fpUserChemistryList` changes.  So `SetChemistryList(l)`
followed by `Deregister(l)` leaves no list registered, and followed by
`Deregister(m)` with `m ≠ l` leaves `l` registered; the static `Activated()`,
which `SetChemistryList` calls, is assumed not to change the registered list. -/
theorem Deregister_only_registered (env : ChemEnv)
    (hAct : ∀ flag m, (env.Activated flag m).fpUserChemistryList = m.fpUserChemistryList)
    (s : G4DNAChemistryManager) (l m : Ptr) :
    (s.fpUserChemistryList = l → Deregister s l = { s with fpUserChemistryList := 0 }) ∧
    (s.fpUserChemistryList ≠ l → Deregister s l = s) ∧
    Deregister s l =
      { s with fpUserChemistryList := (Deregister s l).fpUserChemistryList } ∧
    (Deregister (SetChemistryList env s l) l).fpUserChemistryList = 0 ∧
    (m ≠ l → (Deregister (SetChemistryList env s l) m).fpUserChemistryList = l) := by
  have hset : (SetChemistryList env s l).fpUserChemistryList = l := by
    simp [SetChemistryList, hAct]
  refine ⟨fun h => by simp [Deregister, h], fun h => by simp [Deregister, h], ?_, ?_, ?_⟩
  · by_cases h : s.fpUserChemistryList = l <;> simp [Deregister, h]
  · simp [Deregister, hset]
  · intro hml
    have hne : ¬ l = m := fun h => hml h.symm
    simp [Deregister, hset, hne]

/-- Witness of C15: the example manager has list 7 registered; deregistering 7
clears it, deregistering 8 changes nothing, and after `SetChemistryList(9)`
deregistering 9 leaves no list while deregistering 8 leaves 9. -/
theorem Deregister_only_registered_witness :
    Deregister exManager 7 = { exManager with fpUserChemistryList := 0 } ∧
    Deregister exManager 8 = exManager ∧
    (Deregister (SetChemistryList exChemEnv exManager 9) 9).fpUserChemistryList = 0 ∧
    (Deregister (SetChemistryList exChemEnv exManager 9) 8).fpUserChemistryList = 9 :=
  ⟨(Deregister_only_registered exChemEnv (fun _ _ => rfl) exManager 7 7).1 rfl,
    (Deregister_only_registered exChemEnv (fun _ _ => rfl) exManager 8 8).2.1 (by decide),
    (Deregister_only_registered exChemEnv (fun _ _ => rfl) exManager 9 8).2.2.2.1,
    (Deregister_only_registered exChemEnv (fun _ _ => rfl) exManager 9 8).2.2.2.2
      (by decide)⟩

end G4
